import Mathlib

/-!
# D++ coroutine support (`dpp/coro.h`)

A shallow embedding of the `task` / `promise` / `awaitable` triad of
`src/resources/include/dpp-10.0/dpp/coro.h`.

* Pointers are `Option`s: `none` is a pointer which does not designate an object
  (`nullptr`, or a member which no constructor and no assignment ever set);
  dereferencing it is undefined, which fallible functions report as `none`.
* Member functions are state passing: they take the object (and the world it
  lives in) and return the new one.
* `handle.resume()` and the type `confirmation_callback_t` come from headers which
  are not part of this file; both are parameters of the embedding.
-/

namespace std

/-- The library type `std::suspend_never`: an awaitable with no state. -/
structure suspend_never where
  deriving DecidableEq, Repr

/-- The library member `std::suspend_never::await_ready`, which is constantly `true`. -/
def suspend_never.await_ready (_self : suspend_never) : Bool := true

end std

namespace dpp

/-- Address of a coroutine frame, `std::coroutine_handle<struct promise>` (line 11). -/
abbrev handle_type := Nat

/-- Identity of a `dpp::cluster` object; the class is only declared here (line 13). -/
abbrev cluster := Nat

/-- The struct `task` (lines 18-23): it has no data member. -/
structure task where
  deriving DecidableEq, Repr

/-- The part of `dpp::discord_client` read by this header: its `creator` pointer. -/
structure discord_client where
  creator : Option cluster
  deriving DecidableEq, Repr

/-- The part of `dpp::event_dispatch_t` read by this header: its `from` pointer. -/
structure event_dispatch_t where
  from_ : Option discord_client
  deriving DecidableEq, Repr

/-- The struct `promise` (lines 28-90), over the result type `confirmation_callback_t`. -/
structure promise (confirmation_callback_t : Type) where
  bot : Option cluster
  callback : confirmation_callback_t
  deriving DecidableEq, Repr

/-- One thing an operation does once it is called with a completion function:
call that function now with a result, keep it for the event loop to call later
with a result, or some work of its own which does not involve that function. -/
inductive Action (confirmation_callback_t : Type) where
  | complete (cback : confirmation_callback_t)
  | defer (cback : confirmation_callback_t)
  | effect (tag : Nat)
  deriving DecidableEq, Repr

/-- The template parameter `T` of `awaitable`: a callable taking the completion
function, described by what it does with that function, in order. -/
abbrev Invoker (confirmation_callback_t : Type) := List (Action confirmation_callback_t)

/-- The struct `awaitable<T>` (lines 98-150). -/
structure awaitable (confirmation_callback_t : Type) where
  p : Option handle_type
  bot : Option cluster
  api_req : Invoker confirmation_callback_t
  deriving DecidableEq, Repr

/-- The closure type of the lambda of line 139, which captures `handle` by value. -/
structure completion_fn where
  handle : handle_type
  deriving DecidableEq, Repr

/-- What the code under study does that can be seen from outside. -/
inductive Event (confirmation_callback_t : Type) where
  | api_call (op : Invoker confirmation_callback_t)
  | store (handle : handle_type) (cback : confirmation_callback_t)
  | resume (handle : handle_type)
  | result (handle : handle_type) (cback : confirmation_callback_t)
  | undefined_read (handle : handle_type)
  | effect (tag : Nat)
  deriving DecidableEq, Repr

/-- Where a coroutine stands: running, suspended at one of its suspension points
(`at_await a` while the awaitable `a` of a `co_await` is pending), destroyed after
its body ended, or in a state the language leaves undefined. -/
inductive Status (confirmation_callback_t : Type) where
  | running
  | at_initial_suspend
  | at_await (a : awaitable confirmation_callback_t)
  | at_final_suspend
  | finished
  | undefined
  deriving DecidableEq, Repr

/-- The control part of a coroutine frame whose body is a sequence of
`co_await awaitable(cl, api_call)` expressions: where it stands, the expressions
still to come, and the results its body has received so far. -/
structure Frame (confirmation_callback_t : Type) where
  status : Status confirmation_callback_t
  rest : List (Option cluster × Invoker confirmation_callback_t)
  results : List confirmation_callback_t
  deriving DecidableEq, Repr

/-- The promises and frames of all coroutines, the completion functions kept
for the event loop, and the events so far. -/
structure World (confirmation_callback_t : Type) where
  promises : handle_type → promise confirmation_callback_t
  frames : handle_type → Frame confirmation_callback_t
  pending : List (completion_fn × confirmation_callback_t)
  trace : List (Event confirmation_callback_t)

section

variable {confirmation_callback_t : Type}

/-- Line 42, `promise() = default`: the member initialiser `bot = nullptr` and a
default-constructed `callback`. -/
def promise.construct [Inhabited confirmation_callback_t] : promise confirmation_callback_t :=
  { bot := none, callback := default }

/-- Line 49, `promise(const event_dispatch_t& ev) : bot(ev.from->creator)`;
undefined when `ev.from` designates no client. -/
def promise.construct_ev [Inhabited confirmation_callback_t] (ev : event_dispatch_t) :
    Option (promise confirmation_callback_t) :=
  match ev.from_ with
  | none => none
  | some client => some { bot := client.creator, callback := default }

/-- Lines 56-58. -/
def promise.get_return_object (self : promise confirmation_callback_t) :
    task × promise confirmation_callback_t :=
  ({}, self)

/-- Lines 65-67. -/
def promise.initial_suspend (self : promise confirmation_callback_t) :
    std.suspend_never × promise confirmation_callback_t :=
  ({}, self)

/-- Lines 74-76. -/
def promise.final_suspend (self : promise confirmation_callback_t) :
    std.suspend_never × promise confirmation_callback_t :=
  ({}, self)

/-- Line 81. -/
def promise.return_void (self : promise confirmation_callback_t) :
    promise confirmation_callback_t :=
  self

/-- Lines 86-89: the body is empty (both statements are commented out), so the
exception in flight is dropped and the call returns normally. -/
def promise.unhandled_exception {exception : Type} (self : promise confirmation_callback_t)
    (_current_exception : exception) : Except exception (promise confirmation_callback_t) :=
  Except.ok self

/-- Line 120, `awaitable(cluster* cl, T api_call) : bot{cl}, api_req{api_call} {}`:
the member `p` has no initialiser, it designates no promise. -/
def awaitable.construct (cl : Option cluster) (api_call : Invoker confirmation_callback_t) :
    awaitable confirmation_callback_t :=
  { p := none, bot := cl, api_req := api_call }

/-- Lines 127-129. -/
def awaitable.await_ready (_self : awaitable confirmation_callback_t) : Bool := false

/-- The assignment `handle.promise().callback = cback` of line 139. -/
def World.set_callback (handle : handle_type) (cback : confirmation_callback_t)
    (w : World confirmation_callback_t) : World confirmation_callback_t :=
  { w with
    promises := fun x => if x = handle then { w.promises handle with callback := cback }
      else w.promises x
    trace := w.trace ++ [Event.store handle cback] }

/-- The call `handle.resume()` seen from outside: control passes to the coroutine,
whose own code is not run. -/
def World.resume (handle : handle_type) (w : World confirmation_callback_t) :
    World confirmation_callback_t :=
  { w with trace := w.trace ++ [Event.resume handle] }

/-- The body of the lambda of line 139:
`handle.promise().callback = cback; handle.resume();`. -/
def completion_fn.call
    (resume : handle_type → World confirmation_callback_t → World confirmation_callback_t)
    (k : completion_fn) (cback : confirmation_callback_t) (w : World confirmation_callback_t) :
    World confirmation_callback_t :=
  resume k.handle (w.set_callback k.handle cback)

/-- One action of an operation on the completion function `k` it was handed. -/
def Action.run
    (resume : handle_type → World confirmation_callback_t → World confirmation_callback_t)
    (k : completion_fn) (w : World confirmation_callback_t) :
    Action confirmation_callback_t → World confirmation_callback_t
  | Action.complete cback => k.call resume cback w
  | Action.defer cback => { w with pending := w.pending ++ [(k, cback)] }
  | Action.effect tag => { w with trace := w.trace ++ [Event.effect tag] }

/-- The call `api_req(k)`: the call is recorded, then the operation acts. -/
def Invoker.invoke
    (resume : handle_type → World confirmation_callback_t → World confirmation_callback_t)
    (op : Invoker confirmation_callback_t) (k : completion_fn)
    (w : World confirmation_callback_t) : World confirmation_callback_t :=
  op.foldl (fun w1 act => act.run resume k w1) { w with trace := w.trace ++ [Event.api_call op] }

/-- Lines 136-140: `api_req([handle](const confirmation_callback_t& cback) {...})`.
The two statements before it are commented out: neither `self.p` nor the
promise's `bot` is assigned. -/
def awaitable.await_suspend
    (resume : handle_type → World confirmation_callback_t → World confirmation_callback_t)
    (self : awaitable confirmation_callback_t) (handle : handle_type)
    (w : World confirmation_callback_t) : World confirmation_callback_t :=
  self.api_req.invoke resume { handle := handle } w

/-- Lines 147-149, `return p->callback;`: undefined when `p` designates no promise. -/
def awaitable.await_resume (self : awaitable confirmation_callback_t)
    (w : World confirmation_callback_t) : Option confirmation_callback_t :=
  match self.p with
  | none => none
  | some handle => some (w.promises handle).callback

/-- The event loop calls the completion function it has kept longest. -/
def World.fire
    (resume : handle_type → World confirmation_callback_t → World confirmation_callback_t)
    (w : World confirmation_callback_t) : World confirmation_callback_t :=
  match w.pending with
  | [] => w
  | (k, cback) :: others => k.call resume cback { w with pending := others }

/-- Replace the promise of the coroutine `handle`. -/
def World.set_promise (handle : handle_type) (pr : promise confirmation_callback_t)
    (w : World confirmation_callback_t) : World confirmation_callback_t :=
  { w with promises := fun x => if x = handle then pr else w.promises x }

/-- Replace the control part of the coroutine `handle`. -/
def World.set_frame (handle : handle_type) (f : Frame confirmation_callback_t)
    (w : World confirmation_callback_t) : World confirmation_callback_t :=
  { w with frames := fun x => if x = handle then f else w.frames x }

/-- The coroutine `handle` falls off the end of its body: `return_void()`, then
`co_await final_suspend()`, after which the frame is destroyed unless that
suspends. -/
def World.body_ends (handle : handle_type) (w : World confirmation_callback_t) :
    World confirmation_callback_t :=
  let pr := (w.promises handle).return_void
  let d := pr.final_suspend
  (w.set_promise handle d.2).set_frame handle
    { (w.frames handle) with
      status := if d.1.await_ready then Status.finished else Status.at_final_suspend
      rest := [] }

/-- An exception leaves the body of the coroutine `handle`: `unhandled_exception()`
is called in the handler; when it returns, `co_await final_suspend()` follows as
at the end of the body, and when it throws, the exception reaches the caller. -/
def World.body_throws {exception : Type} (handle : handle_type) (e : exception)
    (w : World confirmation_callback_t) : Except exception (World confirmation_callback_t) :=
  match (w.promises handle).unhandled_exception e with
  | Except.error e1 => Except.error e1
  | Except.ok pr =>
    let d := pr.final_suspend
    Except.ok ((w.set_promise handle d.2).set_frame handle
      { (w.frames handle) with
        status := if d.1.await_ready then Status.finished else Status.at_final_suspend
        rest := [] })

/-- The body of the coroutine `handle` runs the `co_await` expressions `body` that
are left. For each, `awaitable(cl, api_call)` is built and `await_ready()` asked:
when it is false the coroutine is suspended, `await_suspend(handle)` is called and
control returns to whoever called or resumed the coroutine; when it is true
`await_resume()` gives the value at once. -/
def run_body
    (resume : handle_type → World confirmation_callback_t → World confirmation_callback_t)
    (handle : handle_type) :
    List (Option cluster × Invoker confirmation_callback_t) → World confirmation_callback_t →
      World confirmation_callback_t
  | [], w => w.body_ends handle
  | (cl, api_call) :: rest, w =>
    let a : awaitable confirmation_callback_t := awaitable.construct cl api_call
    if a.await_ready then
      match a.await_resume w with
      | none =>
        { w.set_frame handle { (w.frames handle) with status := Status.undefined, rest := rest }
          with trace := w.trace ++ [Event.undefined_read handle] }
      | some r =>
        run_body resume handle rest
          { w.set_frame handle
              { (w.frames handle) with rest := rest, results := (w.frames handle).results ++ [r] }
            with trace := w.trace ++ [Event.result handle r] }
    else
      a.await_suspend resume handle
        (w.set_frame handle { (w.frames handle) with status := Status.at_await a, rest := rest })

/-- The call `handle.resume()` with the code of the coroutine run, resumptions
nested in it being run to depth `fuel`; at depth `0` the call is only recorded.
A coroutine suspended at a `co_await` continues with `await_resume()` of the
awaitable it waits on and then the rest of its body. Resuming a coroutine which is
not suspended, or is suspended at its final suspension point, is undefined. -/
def resume_task :
    Nat → handle_type → World confirmation_callback_t → World confirmation_callback_t
  | 0, handle, w => w.resume handle
  | fuel + 1, handle, w =>
    let w1 := w.resume handle
    let f := w1.frames handle
    match f.status with
    | Status.at_initial_suspend =>
      run_body (resume_task fuel) handle f.rest
        (w1.set_frame handle { f with status := Status.running })
    | Status.at_await a =>
      match a.await_resume w1 with
      | none =>
        { w1.set_frame handle { f with status := Status.undefined }
          with trace := w1.trace ++ [Event.undefined_read handle] }
      | some r =>
        run_body (resume_task fuel) handle f.rest
          { w1.set_frame handle
              { f with status := Status.running, results := f.results ++ [r] }
            with trace := w1.trace ++ [Event.result handle r] }
    | _ => w1.set_frame handle { f with status := Status.undefined }

/-- A coroutine with promise `pr` and body `body` is called: its frame is set up
at `handle`, `get_return_object()` and `co_await initial_suspend()` come first,
then the body runs up to its first suspension. -/
def start_task
    (resume : handle_type → World confirmation_callback_t → World confirmation_callback_t)
    (handle : handle_type) (pr : promise confirmation_callback_t)
    (body : List (Option cluster × Invoker confirmation_callback_t))
    (w : World confirmation_callback_t) : World confirmation_callback_t :=
  let r := pr.get_return_object
  let d := r.2.initial_suspend
  let w1 := (w.set_promise handle d.2).set_frame handle
    { status := Status.running, rest := body, results := [] }
  if d.1.await_ready then run_body resume handle body w1
  else w1.set_frame handle { status := Status.at_initial_suspend, rest := body, results := [] }

/-- The event loop takes `steps` turns. -/
def event_loop
    (resume : handle_type → World confirmation_callback_t → World confirmation_callback_t) :
    Nat → World confirmation_callback_t → World confirmation_callback_t
  | 0, w => w
  | steps + 1, w => event_loop resume steps (w.fire resume)

/-- A coroutine is called and the event loop then takes `steps` turns. -/
def run_task (fuel steps : Nat) (handle : handle_type) (pr : promise confirmation_callback_t)
    (body : List (Option cluster × Invoker confirmation_callback_t))
    (w : World confirmation_callback_t) : World confirmation_callback_t :=
  event_loop (resume_task fuel) steps (start_task (resume_task fuel) handle pr body w)

/-- A world in which nothing has happened: no live coroutine, nothing kept by the
event loop, no event. -/
def World.init [Inhabited confirmation_callback_t] : World confirmation_callback_t :=
  { promises := fun _ => promise.construct
    frames := fun _ => { status := Status.finished, rest := [], results := [] }
    pending := []
    trace := [] }

/-- How often `handle.resume()` was called for the coroutine `handle`. -/
def resume_count (handle : handle_type) (tr : List (Event confirmation_callback_t)) : Nat :=
  tr.countP fun ev => match ev with
    | Event.resume x => decide (x = handle)
    | _ => false

/-- How often the `callback` of the promise of `handle` was assigned. -/
def store_count (handle : handle_type) (tr : List (Event confirmation_callback_t)) : Nat :=
  tr.countP fun ev => match ev with
    | Event.store x _ => decide (x = handle)
    | _ => false

/-- How often an operation was called. -/
def api_call_count (tr : List (Event confirmation_callback_t)) : Nat :=
  tr.countP fun ev => match ev with
    | Event.api_call _ => true
    | _ => false

/-- The events of the work an operation does on its own. -/
def Invoker.effects (op : Invoker confirmation_callback_t) :
    List (Event confirmation_callback_t) :=
  op.filterMap fun act => match act with
    | Action.effect tag => some (Event.effect tag)
    | _ => none

/-- The operation neither calls the completion function nor keeps it to be called. -/
def Invoker.never_completes (op : Invoker confirmation_callback_t) : Prop :=
  ∀ act ∈ op, ∃ tag, act = Action.effect tag

/-- Nothing of the coroutine `handle` differs between `w` and `w1`: its promise, its
frame, how often it was resumed and its `callback` assigned, and the completion
functions on it which the event loop keeps. -/
def untouched (handle : handle_type) (w w1 : World confirmation_callback_t) : Prop :=
  w1.promises handle = w.promises handle ∧ w1.frames handle = w.frames handle ∧
  resume_count handle w1.trace = resume_count handle w.trace ∧
  store_count handle w1.trace = store_count handle w.trace ∧
  w1.pending.filter (fun kc => decide (kc.1.handle = handle))
    = w.pending.filter (fun kc => decide (kc.1.handle = handle))

end

section

variable {confirmation_callback_t : Type}

/-- Counting resumptions over a trace extended by one event. -/
theorem resume_count_append (handle : handle_type)
    (tr more : List (Event confirmation_callback_t)) :
    resume_count handle (tr ++ more) = resume_count handle tr + resume_count handle more := by
  simp [resume_count, List.countP_append]

/-- Counting assignments of `callback` over an extended trace. -/
theorem store_count_append (handle : handle_type)
    (tr more : List (Event confirmation_callback_t)) :
    store_count handle (tr ++ more) = store_count handle tr + store_count handle more := by
  simp [store_count, List.countP_append]

/-- Counting calls of operations over an extended trace. -/
theorem api_call_count_append (tr more : List (Event confirmation_callback_t)) :
    api_call_count (tr ++ more) = api_call_count tr + api_call_count more := by
  simp [api_call_count, List.countP_append]

/-- The work an operation does on its own contains no resumption. -/
theorem resume_count_effects (handle : handle_type) (op : Invoker confirmation_callback_t) :
    resume_count handle op.effects = 0 := by
  unfold resume_count
  rw [List.countP_eq_zero]
  intro ev hev
  obtain ⟨act, _, hact⟩ := List.mem_filterMap.1 hev
  cases act <;> simp at hact
  subst hact
  simp

/-- The work an operation does on its own contains no assignment of `callback`. -/
theorem store_count_effects (handle : handle_type) (op : Invoker confirmation_callback_t) :
    store_count handle op.effects = 0 := by
  unfold store_count
  rw [List.countP_eq_zero]
  intro ev hev
  obtain ⟨act, _, hact⟩ := List.mem_filterMap.1 hev
  cases act <;> simp at hact
  subst hact
  simp

/-- The work an operation does on its own contains no call of an operation. -/
theorem api_call_count_effects (op : Invoker confirmation_callback_t) :
    api_call_count op.effects = 0 := by
  unfold api_call_count
  rw [List.countP_eq_zero]
  intro ev hev
  obtain ⟨act, _, hact⟩ := List.mem_filterMap.1 hev
  cases act <;> simp at hact
  subst hact
  simp

/-- An operation which never completes only adds the events of its own work. -/
theorem foldl_run_never_completes
    (resume : handle_type → World confirmation_callback_t → World confirmation_callback_t)
    (k : completion_fn) (op : Invoker confirmation_callback_t) (hop : op.never_completes)
    (w : World confirmation_callback_t) :
    op.foldl (fun w1 act => act.run resume k w1) w = { w with trace := w.trace ++ op.effects } := by
  induction op generalizing w with
  | nil => simp [Invoker.effects]
  | cons act op ih =>
    have hact : ∃ tag, act = Action.effect tag := hop act (List.mem_cons_self act op)
    have hrest : Invoker.never_completes op := fun b hb => hop b (List.mem_cons_of_mem act hb)
    obtain ⟨tag, rfl⟩ := hact
    rw [List.foldl_cons, ih hrest]
    simp [Action.run, Invoker.effects, List.filterMap_cons]

/-- The event loop has nothing to do when it keeps no completion function. -/
theorem event_loop_idle
    (resume : handle_type → World confirmation_callback_t → World confirmation_callback_t)
    (steps : Nat) (w : World confirmation_callback_t) (hw : w.pending = []) :
    event_loop resume steps w = w := by
  induction steps with
  | zero => rfl
  | succ n ih =>
    have hfire : w.fire resume = w := by simp [World.fire, hw]
    rw [event_loop, hfire, ih]

/-- C2: one call of the completion function which `await_suspend` hands to the
operation (the closure on `handle`) first assigns the result `E` to the `callback`
of the promise of `handle` and then resumes `handle`, once each and in this order. -/
theorem completion_stores_then_resumes_once (a : awaitable confirmation_callback_t)
    (handle : handle_type) (E : confirmation_callback_t) (w : World confirmation_callback_t) :
    (∀ resume, a.await_suspend resume handle w
        = a.api_req.invoke resume { handle := handle } w) ∧
    (∀ resume, completion_fn.call resume { handle := handle } E w
        = resume handle (w.set_callback handle E)) ∧
    ((w.set_callback handle E).promises handle).callback = E ∧
    (completion_fn.call World.resume { handle := handle } E w).trace
        = w.trace ++ [Event.store handle E, Event.resume handle] ∧
    ((completion_fn.call World.resume { handle := handle } E w).promises handle).callback = E ∧
    store_count handle (completion_fn.call World.resume { handle := handle } E w).trace
        = store_count handle w.trace + 1 ∧
    resume_count handle (completion_fn.call World.resume { handle := handle } E w).trace
        = resume_count handle w.trace + 1 := by
  refine ⟨fun _ => rfl, fun _ => rfl, ?_, ?_, ?_, ?_, ?_⟩
  · simp [World.set_callback]
  · simp [completion_fn.call, World.resume, World.set_callback]
  · simp [completion_fn.call, World.resume, World.set_callback]
  · simp [completion_fn.call, World.resume, World.set_callback, store_count,
      List.countP_append, List.countP_cons]
  · simp [completion_fn.call, World.resume, World.set_callback, resume_count,
      List.countP_append, List.countP_cons]

/-- C3: `await_ready` is false for every awaitable, whatever its operation and its
two pointers, so a `co_await` always suspends the coroutine and goes through
`await_suspend`, also when the operation completes at once. -/
theorem await_ready_always_false :
    (∀ a : awaitable confirmation_callback_t, a.await_ready = false) ∧
    (∀ (resume : handle_type → World confirmation_callback_t → World confirmation_callback_t)
        (handle : handle_type) (cl : Option cluster) (op : Invoker confirmation_callback_t)
        (rest : List (Option cluster × Invoker confirmation_callback_t))
        (w : World confirmation_callback_t),
      run_body resume handle ((cl, op) :: rest) w
        = (awaitable.construct cl op).await_suspend resume handle
            (w.set_frame handle
              { (w.frames handle) with
                status := Status.at_await (awaitable.construct cl op), rest := rest })) := by
  refine ⟨fun _ => rfl, ?_⟩
  intro resume handle cl op rest w
  simp [run_body, awaitable.await_ready]

/-- C5: `initial_suspend` and `final_suspend` both return `std::suspend_never`,
which is always ready, and leave the promise as it was; a coroutine whose body is
empty is therefore finished as soon as it is called, its promise untouched. -/
theorem initial_and_final_suspend_never_suspend (pr : promise confirmation_callback_t) :
    pr.initial_suspend.1.await_ready = true ∧ pr.initial_suspend.2 = pr ∧
    pr.final_suspend.1.await_ready = true ∧ pr.final_suspend.2 = pr ∧
    (∀ (resume : handle_type → World confirmation_callback_t → World confirmation_callback_t)
        (handle : handle_type) (w : World confirmation_callback_t),
      ((start_task resume handle pr [] w).frames handle).status = Status.finished ∧
      (start_task resume handle pr [] w).promises handle = pr ∧
      (start_task resume handle pr [] w).trace = w.trace) := by
  refine ⟨rfl, rfl, rfl, rfl, ?_⟩
  intro resume handle w
  simp [start_task, run_body, World.body_ends, World.set_frame, World.set_promise,
    promise.get_return_object, promise.initial_suspend, promise.final_suspend,
    promise.return_void, std.suspend_never.await_ready]

/-- C9: `unhandled_exception` returns normally with the promise as it was, whatever
the exception; the coroutine whose body threw is then finished, nothing reaches
its caller and nothing is recorded. -/
theorem unhandled_exception_discards {exception : Type}
    (pr : promise confirmation_callback_t) (e : exception) :
    pr.unhandled_exception e = Except.ok pr ∧
    (∀ (handle : handle_type) (w : World confirmation_callback_t),
      ∃ w1, w.body_throws handle e = Except.ok w1 ∧
        w1.promises = w.promises ∧ w1.trace = w.trace ∧ w1.pending = w.pending ∧
        (w1.frames handle).status = Status.finished) := by
  refine ⟨rfl, ?_⟩
  intro handle w
  refine ⟨_, rfl, ?_, rfl, rfl, ?_⟩
  · funext x
    by_cases hx : x = handle
    · simp [World.set_frame, World.set_promise, promise.final_suspend, hx]
    · simp [World.set_frame, World.set_promise, promise.final_suspend, hx]
  · simp [World.set_frame, std.suspend_never.await_ready]

/-- Nothing differs between a world and itself. -/
theorem untouched_refl (handle : handle_type) (w : World confirmation_callback_t) :
    untouched handle w w :=
  ⟨rfl, rfl, rfl, rfl, rfl⟩

/-- Two steps which each leave a coroutine alone leave it alone together. -/
theorem untouched_trans {handle : handle_type} {w w1 w2 : World confirmation_callback_t}
    (h1 : untouched handle w w1) (h2 : untouched handle w1 w2) : untouched handle w w2 :=
  ⟨h2.1.trans h1.1, h2.2.1.trans h1.2.1, h2.2.2.1.trans h1.2.2.1,
    h2.2.2.2.1.trans h1.2.2.2.1, h2.2.2.2.2.trans h1.2.2.2.2⟩

/-- Replacing the frame of another coroutine. -/
theorem untouched_set_frame (hA hB : handle_type) (hne : hA ≠ hB)
    (f : Frame confirmation_callback_t) (w : World confirmation_callback_t) :
    untouched hB w (w.set_frame hA f) := by
  simp [untouched, World.set_frame, Ne.symm hne]

/-- Replacing the promise of another coroutine. -/
theorem untouched_set_promise (hA hB : handle_type) (hne : hA ≠ hB)
    (pr : promise confirmation_callback_t) (w : World confirmation_callback_t) :
    untouched hB w (w.set_promise hA pr) := by
  simp [untouched, World.set_promise, Ne.symm hne]

/-- Assigning the `callback` of another coroutine. -/
theorem untouched_set_callback (hA hB : handle_type) (hne : hA ≠ hB)
    (E : confirmation_callback_t) (w : World confirmation_callback_t) :
    untouched hB w (w.set_callback hA E) := by
  simp [untouched, World.set_callback, Ne.symm hne, store_count, resume_count,
    List.countP_append, List.countP_cons, hne]

/-- Recording the resumption of another coroutine. -/
theorem untouched_resume (hA hB : handle_type) (hne : hA ≠ hB)
    (w : World confirmation_callback_t) : untouched hB w (w.resume hA) := by
  simp [untouched, World.resume, store_count, resume_count, List.countP_append,
    List.countP_cons, hne]

/-- The completion function on `hA` leaves `hB` alone when resuming `hA` does. -/
theorem untouched_call
    (resume : handle_type → World confirmation_callback_t → World confirmation_callback_t)
    (hA hB : handle_type) (hne : hA ≠ hB)
    (hres : ∀ w, untouched hB w (resume hA w))
    (E : confirmation_callback_t) (w : World confirmation_callback_t) :
    untouched hB w (completion_fn.call resume { handle := hA } E w) :=
  untouched_trans (untouched_set_callback hA hB hne E w) (hres _)

/-- An operation handed the completion function on `hA` leaves `hB` alone. -/
theorem untouched_foldl_run
    (resume : handle_type → World confirmation_callback_t → World confirmation_callback_t)
    (hA hB : handle_type) (hne : hA ≠ hB)
    (hres : ∀ w, untouched hB w (resume hA w))
    (op : Invoker confirmation_callback_t) (w : World confirmation_callback_t) :
    untouched hB w (op.foldl (fun w1 act => act.run resume { handle := hA } w1) w) := by
  induction op generalizing w with
  | nil => exact untouched_refl hB w
  | cons act op ih =>
    rw [List.foldl_cons]
    refine untouched_trans ?_ (ih _)
    cases act with
    | complete c => exact untouched_call resume hA hB hne hres c w
    | defer c =>
      simp [untouched, Action.run, List.filter_append, hne]
    | effect tag =>
      simp [untouched, Action.run, store_count, resume_count, List.countP_append,
        List.countP_cons]

/-- The call `await_suspend(hA)` leaves `hB` alone when resuming `hA` does. -/
theorem untouched_await_suspend
    (resume : handle_type → World confirmation_callback_t → World confirmation_callback_t)
    (hA hB : handle_type) (hne : hA ≠ hB)
    (hres : ∀ w, untouched hB w (resume hA w))
    (a : awaitable confirmation_callback_t) (w : World confirmation_callback_t) :
    untouched hB w (a.await_suspend resume hA w) := by
  unfold awaitable.await_suspend Invoker.invoke
  refine untouched_trans ?_ (untouched_foldl_run resume hA hB hne hres _ _)
  simp [untouched, store_count, resume_count, List.countP_append, List.countP_cons]

/-- The body of `hA` leaves `hB` alone when resuming `hA` does. -/
theorem untouched_run_body
    (resume : handle_type → World confirmation_callback_t → World confirmation_callback_t)
    (hA hB : handle_type) (hne : hA ≠ hB)
    (hres : ∀ w, untouched hB w (resume hA w))
    (body : List (Option cluster × Invoker confirmation_callback_t))
    (w : World confirmation_callback_t) :
    untouched hB w (run_body resume hA body w) := by
  cases body with
  | nil =>
    simp only [run_body, World.body_ends]
    exact untouched_trans (untouched_set_promise hA hB hne _ w)
      (untouched_set_frame hA hB hne _ _)
  | cons first rest =>
    obtain ⟨cl, op⟩ := first
    have hrun : run_body resume hA ((cl, op) :: rest) w
        = (awaitable.construct cl op).await_suspend resume hA
            (w.set_frame hA
              { (w.frames hA) with
                status := Status.at_await (awaitable.construct cl op), rest := rest }) := by
      simp [run_body, awaitable.await_ready]
    rw [hrun]
    exact untouched_trans (untouched_set_frame hA hB hne _ w)
      (untouched_await_suspend resume hA hB hne hres _ _)

/-- Resuming `hA`, its code run to any depth, leaves `hB` alone. -/
theorem untouched_resume_task (hA hB : handle_type) (hne : hA ≠ hB) (fuel : Nat) :
    ∀ w : World confirmation_callback_t, untouched hB w (resume_task fuel hA w) := by
  induction fuel with
  | zero => exact fun w => untouched_resume hA hB hne w
  | succ n ih =>
    intro w
    have hlog : ∀ (w1 : World confirmation_callback_t) (ev : Event confirmation_callback_t),
        ev = Event.undefined_read hA ∨ (∃ r, ev = Event.result hA r) →
        untouched hB w1 { w1 with trace := w1.trace ++ [ev] } := by
      intro w1 ev hev
      rcases hev with rfl | ⟨r, rfl⟩ <;>
        simp [untouched, store_count, resume_count, List.countP_append, List.countP_cons]
    unfold resume_task
    simp only []
    refine untouched_trans (untouched_resume hA hB hne w) ?_
    split
    · exact untouched_trans (untouched_set_frame hA hB hne _ _)
        (untouched_run_body (resume_task n) hA hB hne ih _ _)
    · split
      · exact untouched_trans (untouched_set_frame hA hB hne _ _) (hlog _ _ (Or.inl rfl))
      · exact untouched_trans
          (untouched_trans (untouched_set_frame hA hB hne _ _) (hlog _ _ (Or.inr ⟨_, rfl⟩)))
          (untouched_run_body (resume_task n) hA hB hne ih _ _)
    · exact untouched_set_frame hA hB hne _ _

/-- C6: for two distinct coroutines `hA` and `hB`, a call of the completion function
of a suspension of `hA`, with any result and with the code of `hA` run on to any
depth, leaves the promise of `hB` (its `callback` and its `bot`) and its frame as
they were and does not resume `hB`; whether the promises share a `bot` plays no
part. -/
theorem completion_leaves_other_task (hA hB : handle_type) (hne : hA ≠ hB)
    (E : confirmation_callback_t) (w : World confirmation_callback_t) (fuel : Nat) :
    (completion_fn.call (resume_task fuel) { handle := hA } E w).promises hB
        = w.promises hB ∧
    (completion_fn.call (resume_task fuel) { handle := hA } E w).frames hB
        = w.frames hB ∧
    resume_count hB (completion_fn.call (resume_task fuel) { handle := hA } E w).trace
        = resume_count hB w.trace ∧
    store_count hB (completion_fn.call (resume_task fuel) { handle := hA } E w).trace
        = store_count hB w.trace ∧
    (completion_fn.call World.resume { handle := hA } E w).promises hB = w.promises hB ∧
    resume_count hB (completion_fn.call World.resume { handle := hA } E w).trace
        = resume_count hB w.trace := by
  have h1 := untouched_call (resume_task fuel) hA hB hne
    (untouched_resume_task hA hB hne fuel) E w
  have h2 := untouched_call World.resume hA hB hne (untouched_resume hA hB hne) E w
  exact ⟨h1.1, h1.2.1, h1.2.2.1, h1.2.2.2.1, h2.1, h2.2.2.1⟩

/-- C6 at two coroutines `0` and `1` and the result `7`. -/
theorem completion_leaves_other_task_witness :
    (0 : handle_type) ≠ 1 ∧
    (completion_fn.call (resume_task 2) { handle := 0 } (7 : Nat) World.init).promises 1
        = (World.init : World Nat).promises 1 ∧
    resume_count 1 (completion_fn.call (resume_task 2) { handle := 0 } (7 : Nat) World.init).trace
        = resume_count 1 (World.init : World Nat).trace :=
  ⟨by decide,
    (completion_leaves_other_task 0 1 (by decide) 7 World.init 2).1,
    (completion_leaves_other_task 0 1 (by decide) 7 World.init 2).2.2.1⟩

/-- C8: when the operation of an awaitable never calls the completion function
(and does not keep it to be called), `await_suspend` calls the operation once and
does nothing else to the coroutines: no resumption, no assignment of a `callback`,
every promise and frame as before, nothing more for the event loop to call; so
however long the event loop runs on an empty queue, the state stays the same. -/
theorem never_completing_operation_never_resumes
    (resume : handle_type → World confirmation_callback_t → World confirmation_callback_t)
    (a : awaitable confirmation_callback_t) (handle : handle_type)
    (w : World confirmation_callback_t) (hnever : a.api_req.never_completes) :
    (a.await_suspend resume handle w).trace
        = w.trace ++ Event.api_call a.api_req :: a.api_req.effects ∧
    api_call_count (a.await_suspend resume handle w).trace = api_call_count w.trace + 1 ∧
    (∀ x, resume_count x (a.await_suspend resume handle w).trace = resume_count x w.trace) ∧
    (∀ x, store_count x (a.await_suspend resume handle w).trace = store_count x w.trace) ∧
    (a.await_suspend resume handle w).promises = w.promises ∧
    (a.await_suspend resume handle w).frames = w.frames ∧
    (a.await_suspend resume handle w).pending = w.pending ∧
    (w.pending = [] → ∀ steps,
      event_loop resume steps (a.await_suspend resume handle w)
        = a.await_suspend resume handle w) := by
  have hrun : a.await_suspend resume handle w
      = { w with trace := w.trace ++ Event.api_call a.api_req :: a.api_req.effects } := by
    unfold awaitable.await_suspend Invoker.invoke
    rw [foldl_run_never_completes resume _ a.api_req hnever]
    simp
  rw [hrun]
  refine ⟨rfl, ?_, ?_, ?_, rfl, rfl, rfl, ?_⟩
  · have h0 := api_call_count_effects a.api_req
    simp only [api_call_count] at h0
    simp [api_call_count, List.countP_append, List.countP_cons, h0]
  · intro x
    have h0 := resume_count_effects x a.api_req
    simp only [resume_count] at h0
    simp [resume_count, List.countP_append, List.countP_cons, h0]
  · intro x
    have h0 := store_count_effects x a.api_req
    simp only [store_count] at h0
    simp [store_count, List.countP_append, List.countP_cons, h0]
  · intro hw steps
    exact event_loop_idle resume steps _ hw

/-- C8 at an operation which only does work of its own, awaited in a world where
nothing has happened, resumptions being run for real. -/
theorem never_completing_operation_never_resumes_witness :
    Invoker.never_completes ([Action.effect 3] : Invoker Nat) ∧
    resume_count 0
        ((awaitable.construct (some 1) ([Action.effect 3] : Invoker Nat)).await_suspend
          (resume_task 1) 0 World.init).trace
      = resume_count 0 (World.init : World Nat).trace :=
  ⟨by intro act hact; exact ⟨3, by simpa using hact⟩,
    (never_completing_operation_never_resumes (resume_task 1)
      (awaitable.construct (some 1) ([Action.effect 3] : Invoker Nat)) 0 World.init
      (by intro act hact; exact ⟨3, by simpa [awaitable.construct] using hact⟩)).2.2.1 0⟩

/-- C10: a promise constructed from an event whose `from` designates a client has
that client's `creator` as its `bot`; a default-constructed promise has a null
`bot`; both hold a `callback` of their own: once such a promise is the promise of
a coroutine, assigning its `callback` changes no promise of another coroutine, and
assigning the `callback` of another coroutine does not change it. -/
theorem create_state_binds_bot_and_is_fresh [Inhabited confirmation_callback_t]
    (ev : event_dispatch_t) (client : discord_client) (hfrom : ev.from_ = some client)
    (handle other : handle_type) (hne : other ≠ handle)
    (E : confirmation_callback_t) (w : World confirmation_callback_t) :
    (∃ pr : promise confirmation_callback_t,
      promise.construct_ev ev = some pr ∧ pr.bot = client.creator ∧ pr.callback = default) ∧
    (promise.construct : promise confirmation_callback_t).bot = none ∧
    (promise.construct : promise confirmation_callback_t).callback = default ∧
    (∀ pr : promise confirmation_callback_t,
      (w.set_promise handle pr).promises handle = pr ∧
      (w.set_promise handle pr).promises other = w.promises other ∧
      ((w.set_promise handle pr).set_callback handle E).promises other = w.promises other ∧
      ((w.set_promise handle pr).set_callback other E).promises handle = pr) := by
  refine ⟨⟨{ bot := client.creator, callback := default },
    by simp [promise.construct_ev, hfrom], rfl, rfl⟩, rfl, rfl, ?_⟩
  intro pr
  simp [World.set_promise, World.set_callback, hne, Ne.symm hne]

/-- C10 at an event from a client created by cluster `4`. -/
theorem create_state_binds_bot_and_is_fresh_witness :
    (event_dispatch_t.mk (some (discord_client.mk (some 4)))).from_
        = some (discord_client.mk (some 4)) ∧
    (1 : handle_type) ≠ 0 ∧
    ∃ pr : promise Nat,
      promise.construct_ev (event_dispatch_t.mk (some (discord_client.mk (some 4)))) = some pr ∧
      pr.bot = some 4 ∧ pr.callback = default :=
  ⟨rfl, by decide,
    (create_state_binds_bot_and_is_fresh (event_dispatch_t.mk (some (discord_client.mk (some 4))))
      (discord_client.mk (some 4)) rfl 0 1 (by decide) (7 : Nat) World.init).1⟩

/-- No assignment made by `await_suspend` reaches the `bot` of a promise. -/
theorem foldl_run_keeps_bot (k : completion_fn) (op : Invoker confirmation_callback_t)
    (w : World confirmation_callback_t) (x : handle_type) :
    ((op.foldl (fun w1 act => act.run World.resume k w1) w).promises x).bot
      = (w.promises x).bot := by
  induction op generalizing w with
  | nil => rfl
  | cons act op ih =>
    rw [List.foldl_cons, ih]
    cases act with
    | complete c =>
      by_cases hx : x = k.handle
      · simp [Action.run, completion_fn.call, World.resume, World.set_callback, hx]
      · simp [Action.run, completion_fn.call, World.resume, World.set_callback, hx]
    | defer c => rfl
    | effect tag => rfl

/-- The call `await_suspend(handle)` leaves the `bot` of every promise as it was,
whatever the `bot` of the awaitable. -/
theorem await_suspend_keeps_bot (a : awaitable confirmation_callback_t) (handle : handle_type)
    (w : World confirmation_callback_t) (x : handle_type) :
    ((a.await_suspend World.resume handle w).promises x).bot = (w.promises x).bot := by
  unfold awaitable.await_suspend Invoker.invoke
  rw [foldl_run_keeps_bot]

/-- An awaitable built by the constructor has no promise to read its result from. -/
theorem await_resume_after_construct (cl : Option cluster)
    (op : Invoker confirmation_callback_t) (w : World confirmation_callback_t) :
    (awaitable.construct cl op).await_resume w = none :=
  rfl

/-- A coroutine whose first `co_await` is on an operation which completes at once
with `E`: the operation is called, `E` is assigned to the `callback`, the coroutine
is resumed, and `await_resume` then reads through the pointer `p` which nothing
has set; the rest of the body is not reached. -/
theorem start_task_first_await (fuel : Nat) (handle : handle_type)
    (pr : promise confirmation_callback_t) (cl : Option cluster) (E : confirmation_callback_t)
    (rest : List (Option cluster × Invoker confirmation_callback_t))
    (w : World confirmation_callback_t) :
    start_task (resume_task (fuel + 1)) handle pr ((cl, [Action.complete E]) :: rest) w
      = { promises := fun x => if x = handle then { pr with callback := E } else w.promises x
          frames := fun x => if x = handle then
              { status := Status.undefined, rest := rest, results := [] }
            else w.frames x
          pending := w.pending
          trace := w.trace ++ [Event.api_call [Action.complete E], Event.store handle E,
            Event.resume handle, Event.undefined_read handle] } := by
  simp [start_task, run_body, awaitable.await_ready, awaitable.await_suspend, Invoker.invoke,
    Action.run, completion_fn.call, resume_task, awaitable.await_resume, awaitable.construct,
    World.set_callback, World.resume, World.set_frame, World.set_promise,
    promise.get_return_object, promise.initial_suspend, std.suspend_never.await_ready]
  constructor <;> funext x <;> by_cases hx : x = handle <;> simp [hx]

/-- The same with the event loop taking turns afterwards, when it keeps no
completion function: nothing more happens. -/
theorem run_task_first_await (fuel steps : Nat) (handle : handle_type)
    (pr : promise confirmation_callback_t) (cl : Option cluster) (E : confirmation_callback_t)
    (rest : List (Option cluster × Invoker confirmation_callback_t))
    (w : World confirmation_callback_t) (hw : w.pending = []) :
    run_task (fuel + 1) steps handle pr ((cl, [Action.complete E]) :: rest) w
      = { promises := fun x => if x = handle then { pr with callback := E } else w.promises x
          frames := fun x => if x = handle then
              { status := Status.undefined, rest := rest, results := [] }
            else w.frames x
          pending := w.pending
          trace := w.trace ++ [Event.api_call [Action.complete E], Event.store handle E,
            Event.resume handle, Event.undefined_read handle] } := by
  unfold run_task
  rw [start_task_first_await]
  exact event_loop_idle _ steps _ hw

/-- The same for an operation which keeps its completion function for the event
loop: nothing happens until the event loop calls it, and then `await_resume` reads
through the pointer `p` which nothing has set. -/
theorem run_task_first_await_deferred (fuel steps : Nat) (handle : handle_type)
    (pr : promise confirmation_callback_t) (cl : Option cluster) (E : confirmation_callback_t)
    (rest : List (Option cluster × Invoker confirmation_callback_t))
    (w : World confirmation_callback_t) (hw : w.pending = []) :
    run_task (fuel + 1) (steps + 1) handle pr ((cl, [Action.defer E]) :: rest) w
      = { promises := fun x => if x = handle then { pr with callback := E } else w.promises x
          frames := fun x => if x = handle then
              { status := Status.undefined, rest := rest, results := [] }
            else w.frames x
          pending := []
          trace := w.trace ++ [Event.api_call [Action.defer E], Event.store handle E,
            Event.resume handle, Event.undefined_read handle] } := by
  have hfire : (start_task (resume_task (fuel + 1)) handle pr
        ((cl, [Action.defer E]) :: rest) w).fire (resume_task (fuel + 1))
      = { promises := fun x => if x = handle then { pr with callback := E } else w.promises x
          frames := fun x => if x = handle then
              { status := Status.undefined, rest := rest, results := [] }
            else w.frames x
          pending := []
          trace := w.trace ++ [Event.api_call [Action.defer E], Event.store handle E,
            Event.resume handle, Event.undefined_read handle] } := by
    simp [start_task, run_body, awaitable.await_ready, awaitable.await_suspend, Invoker.invoke,
      Action.run, completion_fn.call, resume_task, awaitable.await_resume, awaitable.construct,
      World.set_callback, World.resume, World.set_frame, World.set_promise, World.fire, hw,
      promise.get_return_object, promise.initial_suspend, std.suspend_never.await_ready]
    constructor <;> funext x <;> by_cases hx : x = handle <;> simp [hx]
  unfold run_task
  rw [event_loop, hfire]
  exact event_loop_idle _ steps _ rfl

/-- Had the pointer `p` of the awaitable designated the promise of the coroutine,
the resumed coroutine would have received the result: with a frame suspended on
such an awaitable at the end of its body, a call of the completion function with
`E` hands `E` to the body, which then ends. -/
theorem completion_with_pointer_set (fuel : Nat) (handle : handle_type)
    (a : awaitable confirmation_callback_t) (results : List confirmation_callback_t)
    (E : confirmation_callback_t) (w : World confirmation_callback_t)
    (hp : a.p = some handle)
    (hf : w.frames handle = { status := Status.at_await a, rest := [], results := results }) :
    (completion_fn.call (resume_task (fuel + 1)) { handle := handle } E w).frames handle
        = { status := Status.finished, rest := [], results := results ++ [E] } ∧
    (completion_fn.call (resume_task (fuel + 1)) { handle := handle } E w).trace
        = w.trace ++ [Event.store handle E, Event.resume handle, Event.result handle E] := by
  simp [completion_fn.call, resume_task, World.resume, World.set_callback, hf,
    awaitable.await_resume, hp, run_body, World.body_ends, World.set_frame, World.set_promise,
    promise.final_suspend, promise.return_void, std.suspend_never.await_ready]

/-- C1 (the code at the failing input): coroutine `0` with a default-constructed
promise awaits one operation which calls its completion function once, at once,
with the result `7`. The operation is called, `7` is stored in the promise and the
coroutine is resumed once; `await_resume` then reads through `p`, which was never
set, so it has no defined result where the claim says `7`, and the body receives
no result. This holds at every depth and however long the event loop runs, and
likewise when the operation has the event loop call the completion function. -/
theorem await_resume_reads_through_unset_pointer :
    (∀ fuel steps : Nat,
      (run_task (fuel + 1) steps 0 promise.construct [(some 1, [Action.complete (7 : Nat)])]
          World.init).trace
        = [Event.api_call [Action.complete 7], Event.store 0 7, Event.resume 0,
            Event.undefined_read 0] ∧
      ((run_task (fuel + 1) steps 0 promise.construct [(some 1, [Action.complete (7 : Nat)])]
          World.init).promises 0).callback = 7 ∧
      (awaitable.construct (some 1) [Action.complete (7 : Nat)]).await_resume
          (run_task (fuel + 1) steps 0 promise.construct
            [(some 1, [Action.complete (7 : Nat)])] World.init) = none ∧
      ((run_task (fuel + 1) steps 0 promise.construct [(some 1, [Action.complete (7 : Nat)])]
          World.init).frames 0).status = Status.undefined ∧
      ((run_task (fuel + 1) steps 0 promise.construct [(some 1, [Action.complete (7 : Nat)])]
          World.init).frames 0).results = []) ∧
    (∀ fuel steps : Nat,
      (run_task (fuel + 1) (steps + 1) 0 promise.construct [(some 1, [Action.defer (7 : Nat)])]
          World.init).trace
        = [Event.api_call [Action.defer 7], Event.store 0 7, Event.resume 0,
            Event.undefined_read 0] ∧
      ((run_task (fuel + 1) (steps + 1) 0 promise.construct
          [(some 1, [Action.defer (7 : Nat)])] World.init).frames 0).status
        = Status.undefined ∧
      ((run_task (fuel + 1) (steps + 1) 0 promise.construct
          [(some 1, [Action.defer (7 : Nat)])] World.init).frames 0).results = []) := by
  constructor
  · intro fuel steps
    rw [run_task_first_await fuel steps 0 _ _ _ _ _ rfl]
    simp [World.init, awaitable.await_resume, awaitable.construct]
  · intro fuel steps
    rw [run_task_first_await_deferred fuel steps 0 _ _ _ _ _ rfl]
    simp [World.init]

/-- C4 (the code at the failing input): the promise of coroutine `0` is
default-constructed, so its `bot` is null, and the coroutine awaits an awaitable
constructed with the cluster `5`. After `await_suspend` the `bot` of the promise
is still null where the claim says `5`: the assignment is commented out. -/
theorem await_suspend_leaves_null_bot_null :
    ((World.init : World Nat).promises 0).bot = none ∧
    (awaitable.construct (some 5) [Action.complete (7 : Nat)]).bot = some 5 ∧
    (((awaitable.construct (some 5) [Action.complete (7 : Nat)]).await_suspend World.resume 0
        World.init).promises 0).bot = none ∧
    (∀ fuel steps : Nat,
      ((run_task (fuel + 1) steps 0 promise.construct [(some 5, [Action.complete (7 : Nat)])]
          World.init).promises 0).bot = none) := by
  refine ⟨rfl, rfl, ?_, ?_⟩
  · rw [await_suspend_keeps_bot]
    rfl
  · intro fuel steps
    rw [run_task_first_await fuel steps 0 _ _ _ _ _ rfl]
    simp [promise.construct]

/-- C7 (the code at the failing input): coroutine `0` awaits two operations in
turn, each of which calls its completion function once, at once. The first
suspend/resume cycle takes place; `await_resume` of the first await then reads
through the unset `p` and has no defined result, and the second operation is
never called: one operation called and one resumption where the claim says two. -/
theorem second_await_is_never_reached :
    ∀ fuel steps : Nat,
      (run_task (fuel + 1) steps 0 promise.construct
          [(some 1, [Action.complete (7 : Nat)]), (some 1, [Action.complete 8])]
          World.init).trace
        = [Event.api_call [Action.complete 7], Event.store 0 7, Event.resume 0,
            Event.undefined_read 0] ∧
      api_call_count (run_task (fuel + 1) steps 0 promise.construct
          [(some 1, [Action.complete (7 : Nat)]), (some 1, [Action.complete 8])]
          World.init).trace = 1 ∧
      resume_count 0 (run_task (fuel + 1) steps 0 promise.construct
          [(some 1, [Action.complete (7 : Nat)]), (some 1, [Action.complete 8])]
          World.init).trace = 1 ∧
      (run_task (fuel + 1) steps 0 promise.construct
          [(some 1, [Action.complete (7 : Nat)]), (some 1, [Action.complete 8])]
          World.init).frames 0
        = { status := Status.undefined, rest := [(some 1, [Action.complete 8])],
            results := [] } := by
  intro fuel steps
  rw [run_task_first_await fuel steps 0 _ _ _ _ _ rfl]
  simp [World.init, api_call_count, resume_count]

end

end dpp
